import Mathlib

/-!
Shallow embedding of `pkg/workloads/cortex/lib/api/predictor.py`: the predictor
contract-validation and dispatch engine — predictor kind dispatch, module
loading, class resolution, declarative signature validation, runtime client
selection and implementation instantiation.

Python-side effects are made explicit: fallible code returns `Except Err`,
file-system and user-code outcomes (pickle deserialization, source execution,
the user constructor) are passed in as explicit `Except`-valued inputs, and the
one in-place list mutation of the source (`required_args.append` on a rule's
stored list) is modelled by returning the possibly-updated rule alongside each
validation result.
-/

set_option autoImplicit false

namespace CortexPredictor

/-- The predictor type constants imported from `cortex.lib.api`
(`PythonPredictorType`, `TensorFlowPredictorType`, `TensorFlowNeuronPredictorType`,
`ONNXPredictorType`). The specification calls these kinds Plain, TensorServing,
TensorServingNeuron and OnnxRuntime. -/
inductive PredictorKind where
  | PythonPredictorType
  | TensorFlowPredictorType
  | TensorFlowNeuronPredictorType
  | ONNXPredictorType
deriving DecidableEq

/-- The `predictor.models` section of the api spec: `{dir, paths}`. -/
structure ModelsSpec where
  dir : Option String
  paths : List String
deriving DecidableEq

/-- The `predictor` section of the api spec: the fields predictor.py consumes
(`type`, `path`, `config`, `model_path`, `models`). The `type` discriminator is
kept in already-resolved form (the spec: "kind discriminator resolved externally
into PredictorKind"); the user `config` mapping is opaque and passed through. -/
structure PredictorSection where
  type : PredictorKind
  path : String
  config : List (String × String)
  model_path : Option String
  models : ModelsSpec
deriving DecidableEq

/-- The api spec mapping handed to `Predictor.__init__`. -/
structure ApiSpec where
  predictor : PredictorSection
deriving DecidableEq

/-- A Python attribute value as the validator observes it: either an
inspectable function together with its formal parameter names
(`inspect.getfullargspec(fn).args`), or some other value carrying its
truthiness and callability. -/
inductive PyVal where
  | func (args : List String)
  | value (truthy : Bool) (callable : Bool)
deriving DecidableEq

/-- Truthiness of a Python value (`bool(v)`); functions are always truthy. -/
def PyVal.truthy : PyVal → Bool
  | .func _ => true
  | .value t _ => t

/-- Callability of a Python value (`callable(v)`); functions are callable. -/
def PyVal.callable : PyVal → Bool
  | .func _ => true
  | .value _ c => c

/-- A Python class: its declared attributes (methods and other class
attributes), name to value. -/
structure PyClass where
  attrs : List (String × PyVal)
deriving DecidableEq

/-- A module member: a class definition or any other top-level value. -/
inductive ModMember where
  | cls (c : PyClass)
  | other (v : PyVal)
deriving DecidableEq

/-- An in-memory module object: its name and its attributes. -/
structure PyModule where
  name : String
  members : List (String × ModMember)
deriving DecidableEq

/-- Exceptions crossing the boundaries in predictor.py. `userException` and
`userRuntimeException` model `cortex.lib.exceptions.UserException` and
`UserRuntimeException` (both subclasses of `CortexException`, which holds a
list of context messages); the remaining constructors are Python builtins
raised by attribute access, name lookup and call mechanics. -/
inductive Err where
  | userException (msgs : List String)
  | userRuntimeException (msgs : List String)
  | attributeError (name : String)
  | nameError (name : String)
  | typeError (msg : String)
deriving DecidableEq

/-- Whether an exception is a `CortexException` (so that
`except CortexException` catches it): the two cortex exception classes are;
the Python builtins are not. -/
def Err.isCortex : Err → Bool
  | .userException _ => true
  | .userRuntimeException _ => true
  | _ => false

/-- Modelled from the spec: `CortexException.wrap` (from `cortex.lib.exceptions`,
outside this repository slice) prepends a contextual message while preserving
the original messages — spec §4.4: "errors are wrapped (original message
preserved, a contextual prefix naming the offending file path added)". -/
def Err.wrap (msg : String) : Err → Err
  | .userException msgs => .userException (msg :: msgs)
  | .userRuntimeException msgs => .userRuntimeException (msg :: msgs)
  | e => e

/-- `except CortexException as e: e.wrap(msg); raise` — wrap the exception when
it is a `CortexException`, re-raise it untouched otherwise. -/
def Err.wrapCortex (msg : String) (e : Err) : Err :=
  if e.isCortex then e.wrap msg else e

/-- The runtime clients (external constructors, opaque to the core):
`PythonClient()`, `TensorFlowClient(tf_serving_address)`, `ONNXClient(models)`. -/
inductive Client where
  | PythonClient
  | TensorFlowClient (tf_serving_address : String)
  | ONNXClient
deriving DecidableEq

/-- `getattr(impl, name, None)`: first declared attribute with the given name,
`none` standing for Python's `None` default. -/
def getattr (impl : PyClass) (name : String) : Option PyVal :=
  (impl.attrs.find? (fun a => a.1 == name)).map (fun a => a.2)

/-- Truthiness of `getattr(impl, name, None)`: `None` is falsy. -/
def optionTruthy : Option PyVal → Bool
  | none => false
  | some v => v.truthy

/-- Callability of `getattr(impl, name, None)`: `None` is not callable. -/
def optionCallable : Option PyVal → Bool
  | none => false
  | some v => v.callable

/-- `inspect.getfullargspec(fn).args`: the formal parameter names of a
function; calling it on a non-function raises `TypeError`. (The `none` case is
unreachable in predictor.py: it is guarded by the truthiness check.) -/
def getfullargspecArgs : Option PyVal → Except Err (List String)
  | some (.func args) => .ok args
  | _ => .error (.typeError "unsupported callable")

/-- `impl_path.endswith(".pickle")`-style suffix test, written over the
character list so that it is kernel-computable. -/
def strEndsWith (s suffix : String) : Bool :=
  suffix.data.reverse.isPrefixOf s.data.reverse

/-- `os.path.join(project_dir, path)` for a relative second component (the
predictor `path` is repository-relative in the api spec). -/
def osPathJoin (a b : String) : String := a ++ "/" ++ b

/-- Modelled from the spec: `predictor_type_from_api_spec` (imported from
`cortex.lib.api`, not part of this repository slice) resolves `predictor.type`
into a predictor kind; as the spec treats the discriminator as "resolved
externally into PredictorKind", it is modelled as the projection of the
already-resolved field. -/
def predictor_type_from_api_spec (api_spec : ApiSpec) : PredictorKind :=
  api_spec.predictor.type

/-- Modelled from the spec: equality between the externally-defined predictor
type values and the bare string discriminators predictor.py compares them to
(`self.type == "onnx"` etc.). The spec fixes Plain ↔ `python` (its concrete
scenario), OnnxRuntime ↔ `onnx`, and — via the required-class-name table, where
TensorServing and TensorServingNeuron both select `TensorFlowPredictor` —
both tensor-serving kinds ↔ `tensorflow`. -/
def PredictorKind.eqStr : PredictorKind → String → Bool
  | .PythonPredictorType, s => s == "python"
  | .TensorFlowPredictorType, s => s == "tensorflow"
  | .TensorFlowNeuronPredictorType, s => s == "tensorflow"
  | .ONNXPredictorType, s => s == "onnx"

/-- The `Predictor` object with the instance attributes its `__init__`
(lines 37–45) assigns: `provider`, `type`, `path`, `config`, `model_dir`,
`api_spec` — and no others; in particular neither `_api_spec` nor `models`
is ever assigned, so reading them raises `AttributeError`. -/
structure Predictor where
  provider : String
  type : PredictorKind
  path : String
  config : List (String × String)
  model_dir : String
  api_spec : ApiSpec
deriving DecidableEq

/-- `Predictor.__init__(self, provider, model_dir, api_spec)` (lines 37–45). -/
def Predictor.init (provider : String) (model_dir : String) (api_spec : ApiSpec) :
    Predictor :=
  { provider := provider
  , type := predictor_type_from_api_spec api_spec
  , path := api_spec.predictor.path
  , config := api_spec.predictor.config
  , model_dir := model_dir
  , api_spec := api_spec }

/-- A signature-rule predicate over (implementation, specification). -/
def ConditionPred : Type := PyClass → ApiSpec → Bool

/-- One signature rule (the per-method dicts of the validation tables,
lines 164–206): method name, required / optional argument names,
conditionally-required argument names with their predicates, and — for rules
in the `conditional` category — the rule-level trigger predicate. Rules in the
`required` category carry no `condition` key; the defaulted field is never
consulted for them. -/
structure FuncSignature where
  name : String
  required_args : List String := []
  optional_args : List String := []
  condition_args : List (String × ConditionPred) := []
  condition : ConditionPred := fun _ _ => false

/-- A per-kind validation table (`PYTHON_CLASS_VALIDATION` etc.): rule lists
under the keys `required`, `optional` and `conditional`; `.get` with default
`[]` makes a missing key an empty list. -/
structure ContractTable where
  required : List FuncSignature := []
  optional : List FuncSignature := []
  conditional : List FuncSignature := []

/-- `_condition_specified_models(impl, api_spec)` (lines 154–161). -/
def _condition_specified_models (impl : PyClass) (api_spec : ApiSpec) : Bool :=
  (api_spec.predictor.model_path.isSome
      || api_spec.predictor.models.dir.isSome
      || decide (0 < api_spec.predictor.models.paths.length))
  |> fun b => if b then true else (let _ := impl; false)

/-- The `__init__` rule of `PYTHON_CLASS_VALIDATION` (lines 166–170). -/
def pythonInitRule : FuncSignature :=
  { name := "__init__"
  , required_args := ["self", "config"]
  , condition_args := [("python_client", _condition_specified_models)] }

/-- The `predict` rule shared by all three tables (lines 171–175 etc.). -/
def predictRule : FuncSignature :=
  { name := "predict"
  , required_args := ["self"]
  , optional_args := ["payload", "query_params", "headers"] }

/-- The `load_model` conditional rule of `PYTHON_CLASS_VALIDATION`
(lines 177–183). -/
def loadModelRule : FuncSignature :=
  { name := "load_model"
  , required_args := ["self", "model_path"]
  , condition := _condition_specified_models }

/-- `PYTHON_CLASS_VALIDATION` (lines 164–184). -/
def PYTHON_CLASS_VALIDATION : ContractTable :=
  { required := [pythonInitRule, predictRule]
  , conditional := [loadModelRule] }

/-- `TENSORFLOW_CLASS_VALIDATION` (lines 186–195). -/
def TENSORFLOW_CLASS_VALIDATION : ContractTable :=
  { required :=
      [ { name := "__init__", required_args := ["self", "tensorflow_client", "config"] }
      , predictRule ] }

/-- `ONNX_CLASS_VALIDATION` (lines 197–206). -/
def ONNX_CLASS_VALIDATION : ContractTable :=
  { required :=
      [ { name := "__init__", required_args := ["self", "onnx_client", "config"] }
      , predictRule ] }

/-- Error message of line 229. -/
def notDefinedMsg (name : String) : String :=
  "required function \"" ++ name ++ "\" is not defined"

/-- Error message of line 232. -/
def notAFunctionMsg (name : String) : String :=
  "\"" ++ name ++ "\" is defined, but is not a function"

/-- The common head of every "invalid signature" message (lines 247–267). -/
def invalidSigStart : String := "invalid signature for function \""

/-- `f'{name}({", ".join(argspec.args)})'` (line 243). -/
def renderSig (name : String) (args : List String) : String :=
  name ++ "(" ++ String.intercalate ", " args ++ ")"

/-- The name `api_spec` evaluated inside `_validate_required_fn_args`
(line 239): it is neither a parameter of that function nor a module-level
binding of predictor.py, so evaluating it raises `NameError`. -/
def apiSpecGlobal : Except Err ApiSpec := .error (.nameError "api_spec")

/-- The `condition_args` loop of lines 238–240: for each conditional argument
name, evaluate its predicate on `(impl, api_spec)` and, when true, append the
name to `required_args` (the rule's stored list — the append aliases it, so
the possibly-grown list is threaded back to the caller). Evaluating the call's
`api_spec` argument raises `NameError` before the predicate can run. -/
def conditionArgsLoop (impl : PyClass) :
    List (String × ConditionPred) → List String → Except Err Unit × List String
  | [], required_args => (.ok (), required_args)
  | (arg_name, pred) :: rest, required_args =>
    match apiSpecGlobal with
    | .error e => (.error e, required_args)
    | .ok api_spec =>
      if pred impl api_spec then
        conditionArgsLoop impl rest (required_args ++ [arg_name])
      else
        conditionArgsLoop impl rest required_args

/-- The loop of lines 245–255: every required argument must occur among the
formal parameters (else "is a required argument, but was not provided"); a
required `self` must be the first formal parameter. (`argspec.args[0]` is only
evaluated when `"self"` is a member of `argspec.args`, hence the list is
nonempty there and `head?` matches the subscript.) -/
def checkRequiredArgs (fn_str : String) (specArgs : List String) :
    List String → Except Err Unit
  | [] => .ok ()
  | arg_name :: rest =>
    if arg_name ∈ specArgs then
      if arg_name == "self" && !(specArgs.head? == some "self") then
        .error (.userException
          [invalidSigStart ++ fn_str ++ "\": \"self\" must be the first argument"])
      else
        checkRequiredArgs fn_str specArgs rest
    else
      .error (.userException
        [invalidSigStart ++ fn_str ++ "\": \"" ++ arg_name
          ++ "\" is a required argument, but was not provided"])

/-- The loop of lines 257–269: every formal parameter must be a required or
optional argument (else "is not a supported argument") and must not repeat
(else "is duplicated"); `seen_args` accumulates the parameters already
visited. -/
def checkSeenArgs (fn_str : String) (required_args optional_args : List String) :
    List String → List String → Except Err Unit
  | [], _ => .ok ()
  | arg_name :: rest, seen_args =>
    if arg_name ∉ required_args ∧ arg_name ∉ optional_args then
      .error (.userException
        [invalidSigStart ++ fn_str ++ "\": \"" ++ arg_name
          ++ "\" is not a supported argument"])
    else if arg_name ∈ seen_args then
      .error (.userException
        [invalidSigStart ++ fn_str ++ "\": \"" ++ arg_name ++ "\" is duplicated"])
    else
      checkSeenArgs fn_str required_args optional_args rest (seen_args ++ [arg_name])

/-- `_validate_required_fn_args(impl, func_signature)` (lines 226–269). The
second component is the rule as it stands after the call (the source's
`required_args.append` would mutate the rule's stored list in place, so the
threaded list flows back into the returned rule). -/
def _validate_required_fn_args (impl : PyClass) (func_signature : FuncSignature) :
    Except Err Unit × FuncSignature :=
  let fn := getattr impl func_signature.name
  if optionTruthy fn then
    if optionCallable fn then
      let required_args := func_signature.required_args
      let optional_args := func_signature.optional_args
      let step :=
        if func_signature.condition_args.isEmpty then
          (Except.ok (), required_args)
        else
          conditionArgsLoop impl func_signature.condition_args required_args
      match step with
      | (.error e, required_args1) =>
        (.error e, { func_signature with required_args := required_args1 })
      | (.ok _, required_args1) =>
        match getfullargspecArgs fn with
        | .error e => (.error e, { func_signature with required_args := required_args1 })
        | .ok args =>
          let fn_str := renderSig func_signature.name args
          match checkRequiredArgs fn_str args required_args1 with
          | .error e => (.error e, { func_signature with required_args := required_args1 })
          | .ok _ =>
            (checkSeenArgs fn_str required_args1 optional_args args [],
              { func_signature with required_args := required_args1 })
    else
      (.error (.userException [notAFunctionMsg func_signature.name]), func_signature)
  else
    (.error (.userException [notDefinedMsg func_signature.name]), func_signature)

/-- `_validate_optional_fn_args(impl, func_signature)` (lines 221–223): only
validate the rule when the attribute is truthy. -/
def _validate_optional_fn_args (impl : PyClass) (func_signature : FuncSignature) :
    Except Err Unit × FuncSignature :=
  if optionTruthy (getattr impl func_signature.name) then
    _validate_required_fn_args impl func_signature
  else
    (.ok (), func_signature)

/-- Run a per-rule validator down a rule list, stopping at the first raised
exception; the threaded second components mirror the rule dicts after the
loop. -/
def validateList (f : FuncSignature → Except Err Unit × FuncSignature) :
    List FuncSignature → Except Err Unit × List FuncSignature
  | [] => (.ok (), [])
  | fs :: rest =>
    let r := f fs
    match r.1 with
    | .error e => (.error e, r.2 :: rest)
    | .ok _ =>
      let p := validateList f rest
      (p.1, r.2 :: p.2)

/-- `_validate_impl(impl, impl_req, api_spec)` (lines 209–218): optional rules,
then required rules, then conditional rules gated by their predicate; the
second component is the table after the run. -/
def _validate_impl (impl : PyClass) (impl_req : ContractTable) (api_spec : ApiSpec) :
    Except Err Unit × ContractTable :=
  let o := validateList (_validate_optional_fn_args impl) impl_req.optional
  match o.1 with
  | .error e => (.error e, { impl_req with optional := o.2 })
  | .ok _ =>
    let r := validateList (_validate_required_fn_args impl) impl_req.required
    match r.1 with
    | .error e => (.error e, { impl_req with optional := o.2, required := r.2 })
    | .ok _ =>
      let c := validateList
        (fun fs =>
          if fs.condition impl api_spec then _validate_required_fn_args impl fs
          else (.ok (), fs))
        impl_req.conditional
      (c.1, { impl_req with optional := o.2, required := r.2, conditional := c.2 })

/-- `Predictor._load_module(module_name, impl_path)` (lines 128–145).
`pickleResult` is the outcome of `dill.load` on the opened file (the attribute
mapping, or the raised exception's message); `sourceResult` is the outcome of
`imp.load_source` (the executed module, or the raised exception's message). -/
def _load_module (module_name impl_path : String)
    (pickleResult : Except String (List (String × ModMember)))
    (sourceResult : Except String PyModule) : Except Err PyModule :=
  if strEndsWith impl_path ".pickle" then
    match pickleResult with
    | .error msg => .error (.userException ["unable to load pickle", msg])
    | .ok pickled_dict => .ok { name := module_name, members := pickled_dict }
  else
    match sourceResult with
    | .error msg => .error (.userException [msg])
    | .ok impl => .ok impl

/-- `inspect.getmembers(impl, inspect.isclass)`: the (name, class) pairs among
the module's members. -/
def getmembersClasses (m : PyModule) : List (String × PyClass) :=
  m.members.filterMap (fun nm =>
    match nm.2 with
    | .cls c => some (nm.1, c)
    | .other _ => none)

/-- Error message of lines 113–117 (`"multiple definitions for {} class found;
please check your ..."`). -/
def multipleDefsMsg (target : String) : String :=
  "multiple definitions for " ++ target
    ++ " class found; please check your imports and class definitions and ensure that there is only one Predictor class definition"

/-- The resolution loop of lines 109–118: walk the enumerated classes, raising
on a second name match, remembering the first. -/
def resolveClassLoop (target : String) :
    List (String × PyClass) → Option PyClass → Except Err (Option PyClass)
  | [], predictor_class => .ok predictor_class
  | class_df :: classes, predictor_class =>
    if class_df.1 == target then
      match predictor_class with
      | some _ => .error (.userException [multipleDefsMsg target])
      | none => resolveClassLoop target classes (some class_df.2)
    else
      resolveClassLoop target classes predictor_class

/-- Lines 108–120: enumerate the classes, reject duplicates of the target name,
reject a missing definition. -/
def resolveClass (classes : List (String × PyClass)) (target : String) :
    Except Err PyClass :=
  match resolveClassLoop target classes none with
  | .error e => .error e
  | .ok none => .error (.userException [target ++ " class is not defined"])
  | .ok (some predictor_class) => .ok predictor_class

/-- `Predictor.class_impl(project_dir)` (lines 88–126). Selects the target
class name and validation table by kind, loads the module (wrapping
`CortexException`s with `"error in " + self.path`), resolves the class (same
wrapping), then calls `_validate_impl(predictor_class, validations,
self._api_spec)` — but `__init__` assigns `self.api_spec`, never `_api_spec`,
so that attribute access raises `AttributeError`, which
`except CortexException` does not catch. -/
def Predictor.class_impl (p : Predictor) (project_dir : String)
    (pickleResult : Except String (List (String × ModMember)))
    (sourceResult : Except String PyModule) : Except Err PyClass :=
  let target_class_name :=
    if p.type.eqStr "tensorflow" then "TensorFlowPredictor"
    else if p.type.eqStr "onnx" then "ONNXPredictor"
    else "PythonPredictor"
  let _validations :=
    if p.type.eqStr "tensorflow" then TENSORFLOW_CLASS_VALIDATION
    else if p.type.eqStr "onnx" then ONNX_CLASS_VALIDATION
    else PYTHON_CLASS_VALIDATION
  match _load_module "cortex_predictor" (osPathJoin project_dir p.path)
      pickleResult sourceResult with
  | .error e => .error (e.wrapCortex ("error in " ++ p.path))
  | .ok impl =>
    match resolveClass (getmembersClasses impl) target_class_name with
    | .error e => .error (e.wrapCortex ("error in " ++ p.path))
    | .ok _predictor_class =>
      .error (.attributeError "_api_spec")

/-- A keyword argument of the user-class constructor call (lines 77–82): the
runtime client or the user config. -/
inductive CtorArg where
  | clientArg (c : Option Client)
  | configArg (c : List (String × String))
deriving DecidableEq

/-- The instantiated user implementation: the class and the keyword arguments
it was constructed with. -/
structure PyInstance where
  cls : PyClass
  kwargs : List (String × CtorArg)
deriving DecidableEq

/-- `Predictor.initialize_impl(project_dir, client)` (lines 74–86).
`ctorResult` is the outcome of the user's `__init__` body (an arbitrary-code
oracle); a raised exception is re-raised as
`UserRuntimeException(self.path, "__init__", str(e))`. -/
def Predictor.initialize_impl (p : Predictor) (project_dir : String)
    (client : Option Client)
    (pickleResult : Except String (List (String × ModMember)))
    (sourceResult : Except String PyModule)
    (ctorResult : Except String Unit) : Except Err PyInstance :=
  match p.class_impl project_dir pickleResult sourceResult with
  | .error e => .error e
  | .ok class_impl =>
    let kwargs :=
      if p.type.eqStr "onnx" then
        [("onnx_client", CtorArg.clientArg client), ("config", CtorArg.configArg p.config)]
      else if p.type.eqStr "tensorflow" then
        [("tensorflow_client", CtorArg.clientArg client), ("config", CtorArg.configArg p.config)]
      else
        [("config", CtorArg.configArg p.config)]
    match ctorResult with
    | .ok _ => .ok { cls := class_impl, kwargs := kwargs }
    | .error msg => .error (.userRuntimeException [p.path, "__init__", msg])

/-- `Predictor.initialize_client(tf_serving_host, tf_serving_port)`
(lines 47–72). The three `if` statements test mutually exclusive conditions
over the four-valued kind, so they are rendered as a chain; `client` starts as
`None`. For the tensor-serving kinds `None + ":"` would raise `TypeError`; for
the ONNX kind `self.models` is never assigned by `__init__`, so the access
raises `AttributeError`. -/
def Predictor.initialize_client (p : Predictor)
    (tf_serving_host tf_serving_port : Option String) :
    Except Err (Option Client) :=
  if p.type = .PythonPredictorType then
    .ok (some .PythonClient)
  else if p.type = .TensorFlowPredictorType ∨ p.type = .TensorFlowNeuronPredictorType then
    match tf_serving_host, tf_serving_port with
    | some h, some pr => .ok (some (.TensorFlowClient (h ++ ":" ++ pr)))
    | _, _ => .error (.typeError "unsupported operand type for +: NoneType and str")
  else if p.type = .ONNXPredictorType then
    .error (.attributeError "models")
  else
    .ok none

/-- First raised exception of a sequence of checks (the fail-fast semantics of
a Python `for` loop of validations). -/
def firstErr : List (Except Err Unit) → Except Err Unit
  | [] => .ok ()
  | .ok _ :: rest => firstErr rest
  | .error e :: _ => .error e

/-! Concrete scenario data from the specification (§8): api spec
`{predictor: {type: python, path: "p.py", config: {}, model_path: null,
models: {dir: null, paths: []}}}` and the module defining
`class PythonPredictor` with `__init__(self, config)` and
`predict(self, payload)`. -/

/-- The spec's Plain-kind api spec with no models configured. -/
def specNoModels : ApiSpec :=
  { predictor :=
    { type := .PythonPredictorType
    , path := "p.py"
    , config := []
    , model_path := none
    , models := { dir := none, paths := [] } } }

/-- The same api spec with `models.dir` set. -/
def specWithModelsDir : ApiSpec :=
  { predictor :=
    { type := .PythonPredictorType
    , path := "p.py"
    , config := []
    , model_path := none
    , models := { dir := some "s3://bucket/models", paths := [] } } }

/-- `class PythonPredictor` with `__init__(self, config)` and
`predict(self, payload)`. -/
def scenarioPythonClass : PyClass :=
  { attrs :=
    [ ("__init__", .func ["self", "config"])
    , ("predict", .func ["self", "payload"]) ] }

/-- The same class but with `__init__(self)` — `config` missing. -/
def scenarioClassInitSelfOnly : PyClass :=
  { attrs :=
    [ ("__init__", .func ["self"])
    , ("predict", .func ["self", "payload"]) ] }

/-- The module `p.py` defining exactly one `PythonPredictor` class. -/
def scenarioModule : PyModule :=
  { name := "cortex_predictor"
  , members := [("PythonPredictor", .cls scenarioPythonClass)] }

/-- The Plain-kind predictor of the spec's concrete scenario. -/
def scenarioPredictor : Predictor :=
  Predictor.init "aws" "/mnt/model" specNoModels

/-- A predictor of a given kind over the scenario spec (for the client-side
claims, which only depend on the kind). -/
def predictorOfKind (k : PredictorKind) : Predictor :=
  Predictor.init "aws" "/mnt/model"
    { predictor :=
      { type := k
      , path := "p.py"
      , config := []
      , model_path := none
      , models := { dir := none, paths := [] } } }

/-! Helper lemmas. -/

theorem data_head_append (a b : String) (c : Char) (h : a.data.head? = some c) :
    (a ++ b).data.head? = some c := by
  rw [String.data_append]
  cases hd : a.data with
  | nil => rw [hd] at h; simp at h
  | cons x xs =>
    rw [hd] at h
    simp only [List.head?_cons, Option.some.injEq] at h
    simp [h]

theorem ne_of_data_head (a b : String) (c d : Char) (ha : a.data.head? = some c)
    (hb : b.data.head? = some d) (hcd : c ≠ d) : a ≠ b := by
  intro h
  subst h
  rw [ha] at hb
  exact hcd (Option.some.inj hb)

theorem notDefinedMsg_head (n : String) : (notDefinedMsg n).data.head? = some 'r' :=
  data_head_append _ _ _ (data_head_append _ _ _ rfl)

theorem notAFunctionMsg_head (n : String) :
    (notAFunctionMsg n).data.head? = some '"' :=
  data_head_append _ _ _ (data_head_append _ _ _ rfl)

theorem firstErr_append (l1 l2 : List (Except Err Unit)) :
    firstErr (l1 ++ l2) =
      match firstErr l1 with
      | .ok _ => firstErr l2
      | .error e => .error e := by
  induction l1 with
  | nil => rfl
  | cons x rest ih => cases x <;> simp [firstErr, ih]

theorem validateList_fst (f : FuncSignature → Except Err Unit × FuncSignature)
    (l : List FuncSignature) :
    (validateList f l).1 = firstErr (l.map fun fs => (f fs).1) := by
  induction l with
  | nil => rfl
  | cons fs rest ih =>
    cases h : (f fs).1 with
    | error e => simp [validateList, h, firstErr]
    | ok u => simp [validateList, h, firstErr, ih]

theorem validateList_snd (f : FuncSignature → Except Err Unit × FuncSignature)
    (hf : ∀ fs, (f fs).2 = fs) (l : List FuncSignature) :
    (validateList f l).2 = l := by
  induction l with
  | nil => rfl
  | cons fs rest ih =>
    cases h : (f fs).1 with
    | error e => simp [validateList, h, hf]
    | ok u => simp [validateList, h, hf, ih]

theorem conditionArgsLoop_cons (impl : PyClass) (an : String) (pr : ConditionPred)
    (rest : List (String × ConditionPred)) (required_args : List String) :
    conditionArgsLoop impl ((an, pr) :: rest) required_args
      = (.error (.nameError "api_spec"), required_args) := rfl

theorem validate_required_snd (impl : PyClass) (fs : FuncSignature) :
    (_validate_required_fn_args impl fs).2 = fs := by
  cases hT : optionTruthy (getattr impl fs.name)
  · simp [_validate_required_fn_args, hT]
  · cases hC : optionCallable (getattr impl fs.name)
    · simp [_validate_required_fn_args, hT, hC]
    · cases hca : fs.condition_args with
      | nil =>
        cases hg : getfullargspecArgs (getattr impl fs.name) with
        | error e => simp [_validate_required_fn_args, hT, hC, hca, hg]; rw [← hca]
        | ok args =>
          cases hr : checkRequiredArgs (renderSig fs.name args) args fs.required_args with
          | error e => simp [_validate_required_fn_args, hT, hC, hca, hg, hr]; rw [← hca]
          | ok u => simp [_validate_required_fn_args, hT, hC, hca, hg, hr]; rw [← hca]
      | cons hd tl =>
        obtain ⟨an, pr⟩ := hd
        simp [_validate_required_fn_args, hT, hC, hca, conditionArgsLoop_cons]
        rw [← hca]

theorem validate_optional_snd (impl : PyClass) (fs : FuncSignature) :
    (_validate_optional_fn_args impl fs).2 = fs := by
  cases hT : optionTruthy (getattr impl fs.name)
  · simp [_validate_optional_fn_args, hT]
  · simp [_validate_optional_fn_args, hT, validate_required_snd]

theorem validate_impl_snd (impl : PyClass) (t : ContractTable) (spec : ApiSpec) :
    (_validate_impl impl t spec).2 = t := by
  have ho := validateList_snd (_validate_optional_fn_args impl)
    (fun fs => validate_optional_snd impl fs) t.optional
  have hr := validateList_snd (_validate_required_fn_args impl)
    (fun fs => validate_required_snd impl fs) t.required
  have hc := validateList_snd
    (fun fs =>
      if fs.condition impl spec then _validate_required_fn_args impl fs else (.ok (), fs))
    (fun fs => by
      by_cases h : fs.condition impl spec = true <;> simp [h, validate_required_snd])
    t.conditional
  cases h1 : (validateList (_validate_optional_fn_args impl) t.optional).1 with
  | error e => simp [_validate_impl, h1, ho]
  | ok u =>
    cases h2 : (validateList (_validate_required_fn_args impl) t.required).1 with
    | error e => simp [_validate_impl, h1, h2, ho, hr]
    | ok u2 => simp [_validate_impl, h1, h2, ho, hr, hc]

theorem firstErr_gated (impl : PyClass) (spec : ApiSpec) (l : List FuncSignature) :
    firstErr (l.map fun fs =>
        ((if fs.condition impl spec then _validate_required_fn_args impl fs
          else (.ok (), fs)).1)) =
      firstErr ((l.filter fun fs => fs.condition impl spec).map
        fun fs => (_validate_required_fn_args impl fs).1) := by
  induction l with
  | nil => rfl
  | cons fs rest ih =>
    by_cases h : fs.condition impl spec = true
    · cases hx : (_validate_required_fn_args impl fs).1 with
      | error e => simp [h, List.filter_cons, firstErr, hx]
      | ok u => simp [h, List.filter_cons, firstErr, hx, ih]
    · simp [h, List.filter_cons, firstErr, ih]

theorem resolveClassLoop_some (target : String) (c : PyClass)
    (classes : List (String × PyClass)) :
    resolveClassLoop target classes (some c) =
      if (classes.filter fun cd => cd.1 == target).isEmpty then .ok (some c)
      else .error (.userException [multipleDefsMsg target]) := by
  induction classes with
  | nil => rfl
  | cons cd rest ih =>
    simp only [resolveClassLoop, List.filter_cons]
    cases h : (cd.1 == target)
    · simp [h, ih]
    · simp [h]

theorem resolveClassLoop_none (target : String) (classes : List (String × PyClass)) :
    resolveClassLoop target classes none =
      match classes.filter fun cd => cd.1 == target with
      | [] => .ok none
      | cd :: rest =>
        if rest.isEmpty then .ok (some cd.2)
        else .error (.userException [multipleDefsMsg target]) := by
  induction classes with
  | nil => rfl
  | cons cd rest ih =>
    cases h : (cd.1 == target)
    · simp only [resolveClassLoop, h, Bool.false_eq_true, if_false, List.filter_cons]
      exact ih
    · simp [resolveClassLoop, h, List.filter_cons, resolveClassLoop_some]

theorem resolveClass_filter_eq (classes : List (String × PyClass)) (target : String) :
    resolveClass classes target =
      match classes.filter fun cd => cd.1 == target with
      | [] => .error (.userException [target ++ " class is not defined"])
      | [cd] => .ok cd.2
      | _ :: _ :: _ => .error (.userException [multipleDefsMsg target]) := by
  cases hf : classes.filter fun cd => cd.1 == target with
  | nil => simp [resolveClass, resolveClassLoop_none, hf]
  | cons cd rest =>
    cases rest with
    | nil => simp [resolveClass, resolveClassLoop_none, hf]
    | cons cd2 rest2 => simp [resolveClass, resolveClassLoop_none, hf]

theorem checkRequiredArgs_error_shape (fn_str : String) (specArgs : List String)
    (l : List String) (e : Err) (h : checkRequiredArgs fn_str specArgs l = .error e) :
    ∃ msg, e = .userException [msg] ∧ msg.data.head? = some 'i' := by
  induction l with
  | nil => simp [checkRequiredArgs] at h
  | cons a rest ih =>
    rw [checkRequiredArgs] at h
    split at h
    · split at h
      · injection h with h'
        exact ⟨_, h'.symm,
          data_head_append _ _ _ (data_head_append _ _ _ rfl)⟩
      · exact ih h
    · injection h with h'
      exact ⟨_, h'.symm,
        data_head_append _ _ _ (data_head_append _ _ _
          (data_head_append _ _ _ (data_head_append _ _ _ rfl)))⟩

theorem checkSeenArgs_error_shape (fn_str : String) (required optional : List String)
    (l : List String) :
    ∀ (seen : List String) (e : Err),
      checkSeenArgs fn_str required optional l seen = .error e →
      ∃ msg, e = .userException [msg] ∧ msg.data.head? = some 'i' := by
  induction l with
  | nil => intro seen e h; simp [checkSeenArgs] at h
  | cons a rest ih =>
    intro seen e h
    rw [checkSeenArgs] at h
    split at h
    · injection h with h'
      exact ⟨_, h'.symm,
        data_head_append _ _ _ (data_head_append _ _ _
          (data_head_append _ _ _ (data_head_append _ _ _ rfl)))⟩
    · split at h
      · injection h with h'
        exact ⟨_, h'.symm,
          data_head_append _ _ _ (data_head_append _ _ _
            (data_head_append _ _ _ (data_head_append _ _ _ rfl)))⟩
      · exact ih _ _ h

theorem class_impl_always_raises (p : Predictor) (project_dir : String)
    (pickleResult : Except String (List (String × ModMember)))
    (sourceResult : Except String PyModule) :
    ∃ e : Err, p.class_impl project_dir pickleResult sourceResult = .error e := by
  rcases h1 : _load_module "cortex_predictor" (osPathJoin project_dir p.path)
      pickleResult sourceResult with e | impl
  · exact ⟨Err.wrapCortex ("error in " ++ p.path) e,
      by simp [Predictor.class_impl, h1]⟩
  · rcases h2 : resolveClass (getmembersClasses impl)
        (if p.type.eqStr "tensorflow" then "TensorFlowPredictor"
         else if p.type.eqStr "onnx" then "ONNXPredictor"
         else "PythonPredictor") with e2 | c
    · exact ⟨Err.wrapCortex ("error in " ++ p.path) e2,
        by simp [Predictor.class_impl, h1, h2]⟩
    · exact ⟨Err.attributeError "_api_spec",
        by simp [Predictor.class_impl, h1, h2]⟩

theorem getfullargspecArgs_error (o : Option PyVal) (e : Err)
    (h : getfullargspecArgs o = .error e) : e = .typeError "unsupported callable" := by
  cases o with
  | none =>
    injection h with h'
    exact h'.symm
  | some v =>
    cases v with
    | func args => exact Except.noConfusion h
    | value t c =>
      injection h with h'
      exact h'.symm

/-! Claim theorems. -/

/-- C1: the spec's concrete Plain-kind scenario — api spec
`{predictor: {type: python, path: "p.py", config: {}, model_path: null,
models: {dir: null, paths: []}}}` and a module defining exactly one
`PythonPredictor` class with `__init__(self, config)` and
`predict(self, payload)` — does NOT make `initialize_impl` succeed: the code
raises `AttributeError` because `class_impl` reads `self._api_spec`
(line 122) while `__init__` only ever assigns `self.api_spec` (line 45). -/
theorem initialize_impl_plain_scenario_attribute_error :
    scenarioPredictor.initialize_impl "/project" none (.ok []) (.ok scenarioModule) (.ok ())
      = .error (.attributeError "_api_spec") := rfl

/-- C2: for every predictor, every project directory, every client and every
module-loading and constructor outcome, `initialize_impl` raises instead of
instantiating the resolved class: `class_impl` always fails (at latest with
the `AttributeError` on `self._api_spec`), so the kind-keyword instantiation
of lines 77–82 is unreachable. -/
theorem initialize_impl_never_instantiates (p : Predictor) (project_dir : String)
    (client : Option Client)
    (pickleResult : Except String (List (String × ModMember)))
    (sourceResult : Except String PyModule) (ctorResult : Except String Unit) :
    ∃ e : Err,
      p.initialize_impl project_dir client pickleResult sourceResult ctorResult
        = .error e := by
  obtain ⟨e, he⟩ := class_impl_always_raises p project_dir pickleResult sourceResult
  exact ⟨e, by simp [Predictor.initialize_impl, he]⟩

/-- C3: class resolution returns the unique class whose declared name equals
the target; zero matches raise `"<name> class is not defined"`, two or more
matches raise the `"multiple definitions for <name> class found ..."` error;
and the outcome is invariant under permutation of the enumeration order. -/
theorem resolveClass_unique_match (classes : List (String × PyClass)) (target : String) :
    (resolveClass classes target =
      match classes.filter fun cd => cd.1 == target with
      | [] => .error (.userException [target ++ " class is not defined"])
      | [cd] => .ok cd.2
      | _ :: _ :: _ => .error (.userException [multipleDefsMsg target])) ∧
    ∀ classes' : List (String × PyClass), classes.Perm classes' →
      resolveClass classes' target = resolveClass classes target := by
  refine ⟨resolveClass_filter_eq classes target, ?_⟩
  intro classes' hp
  rw [resolveClass_filter_eq classes' target, resolveClass_filter_eq classes target]
  have hfp : (classes.filter fun cd => cd.1 == target).Perm
      (classes'.filter fun cd => cd.1 == target) := hp.filter _
  cases hf : classes.filter fun cd => cd.1 == target with
  | nil =>
    rw [hf] at hfp
    rw [hfp.symm.eq_nil]
  | cons cd rest =>
    cases rest with
    | nil =>
      rw [hf] at hfp
      rw [List.perm_singleton.mp hfp.symm]
    | cons cd2 rest2 =>
      rw [hf] at hfp
      have hlen := hfp.length_eq
      cases hf2 : classes'.filter fun cd => cd.1 == target with
      | nil => rw [hf2] at hlen; simp at hlen
      | cons x xs =>
        cases xs with
        | nil => rw [hf2] at hlen; simp at hlen
        | cons y ys => rfl

/-- Witness for C3: applying the theorem at a concrete two-class module, with
the permutation hypothesis discharged by a concrete swap, and evaluating the
unique-match case. -/
theorem resolveClass_unique_match_witness :
    resolveClass [("B", PyClass.mk []), ("A", PyClass.mk [])] "A"
        = resolveClass [("A", PyClass.mk []), ("B", PyClass.mk [])] "A" ∧
    resolveClass [("A", PyClass.mk []), ("B", PyClass.mk [])] "A"
        = .ok (PyClass.mk []) :=
  ⟨(resolveClass_unique_match [("A", PyClass.mk []), ("B", PyClass.mk [])] "A").2
      [("B", PyClass.mk []), ("A", PyClass.mk [])] (List.Perm.swap _ _ _),
    rfl⟩

/-- C4: validating the spec's Plain-kind scenario class against
`PYTHON_CLASS_VALIDATION` raises `NameError("api_spec")` — both with no models
configured and with `models.dir` set — because the `__init__` rule carries
`condition_args` and line 239 of `_validate_required_fn_args` evaluates the
unbound name `api_spec`; the claimed behaviours (success without models,
`required function "load_model" is not defined` with `models.dir` set) are
never reached. -/
theorem validate_impl_plain_name_error :
    (_validate_impl scenarioPythonClass PYTHON_CLASS_VALIDATION specNoModels).1
        = .error (.nameError "api_spec") ∧
    (_validate_impl scenarioPythonClass PYTHON_CLASS_VALIDATION specWithModelsDir).1
        = .error (.nameError "api_spec") := ⟨rfl, rfl⟩

/-- C5: validating a `PythonPredictor` whose `__init__` is `__init__(self)`
(missing `config`) against the table's `__init__` rule raises
`NameError("api_spec")` (line 239) before the missing-required-argument check
can run; the claimed error — naming `config` and containing the rendered
signature `__init__(self)` — is produced only for a rule without
`condition_args`, as the second conjunct shows. -/
theorem validate_required_missing_config :
    (_validate_required_fn_args scenarioClassInitSelfOnly pythonInitRule).1
        = .error (.nameError "api_spec") ∧
    (_validate_required_fn_args scenarioClassInitSelfOnly
        { name := "__init__", required_args := ["self", "config"] }).1
      = .error (.userException
          [invalidSigStart ++ "__init__(self)"
            ++ "\": \"config\" is a required argument, but was not provided"]) :=
  ⟨rfl, rfl⟩

/-- C6: for every path and every deserialization/execution outcome, the module
loader returns a module or a single wrapped `UserException`, never a raw
exception; a pickle-path failure yields `("unable to load pickle", msg)`, a
source-path failure yields the original message. -/
theorem load_module_wraps (module_name impl_path : String)
    (pickleResult : Except String (List (String × ModMember)))
    (sourceResult : Except String PyModule) :
    ((∃ m, _load_module module_name impl_path pickleResult sourceResult = .ok m) ∨
      (∃ msgs, _load_module module_name impl_path pickleResult sourceResult
        = .error (.userException msgs))) ∧
    (∀ msg, strEndsWith impl_path ".pickle" = true → pickleResult = .error msg →
      _load_module module_name impl_path pickleResult sourceResult
        = .error (.userException ["unable to load pickle", msg])) ∧
    (∀ msg, strEndsWith impl_path ".pickle" = false → sourceResult = .error msg →
      _load_module module_name impl_path pickleResult sourceResult
        = .error (.userException [msg])) := by
  refine ⟨?_, ?_, ?_⟩
  · cases hp : strEndsWith impl_path ".pickle" with
    | false =>
      cases sourceResult with
      | error msg => exact .inr ⟨[msg], by simp [_load_module, hp]⟩
      | ok m => exact .inl ⟨m, by simp [_load_module, hp]⟩
    | true =>
      cases pickleResult with
      | error msg =>
        exact .inr ⟨["unable to load pickle", msg], by simp [_load_module, hp]⟩
      | ok d =>
        exact .inl ⟨{ name := module_name, members := d }, by simp [_load_module, hp]⟩
  · intro msg hp hpr
    subst hpr
    simp [_load_module, hp]
  · intro msg hp hsr
    subst hsr
    simp [_load_module, hp]

/-- Witness for C6: the theorem applied at a pickle path with a failing
deserialization and at a source path with a failing execution. -/
theorem load_module_wraps_witness :
    _load_module "cortex_predictor" "m.pickle" (.error "corrupt")
        (.ok { name := "m", members := [] })
      = .error (.userException ["unable to load pickle", "corrupt"]) ∧
    _load_module "cortex_predictor" "p.py" (.ok []) (.error "invalid syntax")
      = .error (.userException ["invalid syntax"]) :=
  ⟨(load_module_wraps "cortex_predictor" "m.pickle" (.error "corrupt")
        (.ok { name := "m", members := [] })).2.1 "corrupt" (by decide) rfl,
    (load_module_wraps "cortex_predictor" "p.py" (.ok []) (.error "invalid syntax")).2.2
      "invalid syntax" (by decide) rfl⟩

/-- C7: `initialize_client` builds a `PythonClient` for the Plain kind (for
any host/port inputs) and a `TensorFlowClient` at address `host ++ ":" ++
port` for both tensor-serving kinds — but for the ONNX kind it raises
`AttributeError` instead of building an `ONNXClient`, because line 68 reads
`self.models`, which `__init__` never assigns. -/
theorem initialize_client_per_kind :
    (∀ h pr : Option String,
      (predictorOfKind .PythonPredictorType).initialize_client h pr
        = .ok (some .PythonClient)) ∧
    (∀ h pr : String,
      (predictorOfKind .TensorFlowPredictorType).initialize_client (some h) (some pr)
        = .ok (some (.TensorFlowClient (h ++ ":" ++ pr)))) ∧
    (∀ h pr : String,
      (predictorOfKind .TensorFlowNeuronPredictorType).initialize_client (some h) (some pr)
        = .ok (some (.TensorFlowClient (h ++ ":" ++ pr)))) ∧
    (predictorOfKind .ONNXPredictorType).initialize_client (some "localhost") (some "9000")
      = .error (.attributeError "models") :=
  ⟨fun _ _ => rfl, fun _ _ => rfl, fun _ _ => rfl, rfl⟩

/-- C8: `_validate_impl` checks all optional rules, then all required rules,
then the conditional rules whose predicate holds on (class, spec) — in that
order — and returns the first raised violation (fail-fast), as the
`firstErr` characterisation over the concatenated check sequence states. -/
theorem validate_impl_processing_order (impl : PyClass) (t : ContractTable)
    (spec : ApiSpec) :
    (_validate_impl impl t spec).1 =
      firstErr
        ((t.optional.map fun fs => (_validate_optional_fn_args impl fs).1)
          ++ ((t.required.map fun fs => (_validate_required_fn_args impl fs).1)
            ++ ((t.conditional.filter fun fs => fs.condition impl spec).map
                  fun fs => (_validate_required_fn_args impl fs).1))) := by
  rw [firstErr_append, ← validateList_fst]
  cases h1 : (validateList (_validate_optional_fn_args impl) t.optional).1 with
  | error e => simp [_validate_impl, h1]
  | ok u =>
    rw [firstErr_append, ← validateList_fst]
    cases h2 : (validateList (_validate_required_fn_args impl) t.required).1 with
    | error e => simp [_validate_impl, h1, h2]
    | ok u2 =>
      simp only [_validate_impl, h1, h2]
      exact (validateList_fst _ t.conditional).trans (firstErr_gated impl spec t.conditional)

/-- C9: no run of signature validation modifies any rule or any table (the
only mutation site, the `required_args.append` of line 240, is unreachable) —
but the claimed union computation of the effective required-argument set never
happens either: validating the conditional-argument `__init__` rule of
`PYTHON_CLASS_VALIDATION` raises `NameError("api_spec")` at line 239. -/
theorem validation_rules_unchanged :
    (∀ (impl : PyClass) (fs : FuncSignature),
      (_validate_required_fn_args impl fs).2 = fs) ∧
    (∀ (impl : PyClass) (t : ContractTable) (spec : ApiSpec),
      (_validate_impl impl t spec).2 = t) ∧
    (_validate_required_fn_args scenarioPythonClass pythonInitRule).1
      = .error (.nameError "api_spec") :=
  ⟨validate_required_snd, validate_impl_snd, rfl⟩

/-- C10: required-method existence is decided by truthiness — an attribute
that exists but is falsy raises the `"required function ... is not defined"`
error; the `"is defined, but is not a function"` error is raised exactly when
the attribute is truthy and not callable; and an optional rule whose attribute
is falsy is skipped. -/
theorem required_fn_truthiness (impl : PyClass) (fs : FuncSignature) :
    (∀ v : PyVal, getattr impl fs.name = some v → v.truthy = false →
      (_validate_required_fn_args impl fs).1
        = .error (.userException [notDefinedMsg fs.name])) ∧
    ((_validate_required_fn_args impl fs).1
        = .error (.userException [notAFunctionMsg fs.name]) ↔
      optionTruthy (getattr impl fs.name) = true
        ∧ optionCallable (getattr impl fs.name) = false) ∧
    (optionTruthy (getattr impl fs.name) = false →
      (_validate_optional_fn_args impl fs).1 = .ok ()) := by
  refine ⟨?_, ⟨?_, ?_⟩, ?_⟩
  · intro v hv htr
    have hT : optionTruthy (getattr impl fs.name) = false := by
      rw [hv, optionTruthy, htr]
    simp [_validate_required_fn_args, hT]
  · intro h
    by_cases hT : optionTruthy (getattr impl fs.name) = true
    · by_cases hC : optionCallable (getattr impl fs.name) = true
      · exfalso
        cases hca : fs.condition_args with
        | nil =>
          cases hg : getfullargspecArgs (getattr impl fs.name) with
          | error e =>
            have he := getfullargspecArgs_error _ _ hg
            simp [_validate_required_fn_args, hT, hC, hca, hg, he] at h
          | ok args =>
            cases hr : checkRequiredArgs (renderSig fs.name args) args
                fs.required_args with
            | error e =>
              obtain ⟨m, he, hm⟩ := checkRequiredArgs_error_shape _ _ _ _ hr
              simp [_validate_required_fn_args, hT, hC, hca, hg, hr, he] at h
              exact ne_of_data_head m (notAFunctionMsg fs.name) 'i' '"'
                hm (notAFunctionMsg_head fs.name) (by decide) h
            | ok u =>
              have hres : (_validate_required_fn_args impl fs).1
                  = checkSeenArgs (renderSig fs.name args) fs.required_args
                      fs.optional_args args [] := by
                simp [_validate_required_fn_args, hT, hC, hca, hg, hr]
              rw [hres] at h
              obtain ⟨m, he, hm⟩ := checkSeenArgs_error_shape _ _ _ _ _ _ h
              have hq : notAFunctionMsg fs.name = m := by
                simpa using he
              exact ne_of_data_head m (notAFunctionMsg fs.name) 'i' '"' hm
                (notAFunctionMsg_head fs.name) (by decide) hq.symm
        | cons hd tl =>
          obtain ⟨an, pr⟩ := hd
          simp [_validate_required_fn_args, hT, hC, hca, conditionArgsLoop_cons] at h
      · exact ⟨hT, by simpa using hC⟩
    · exfalso
      have hT' : optionTruthy (getattr impl fs.name) = false := by simpa using hT
      simp [_validate_required_fn_args, hT'] at h
      exact ne_of_data_head (notDefinedMsg fs.name) (notAFunctionMsg fs.name) 'r' '"'
        (notDefinedMsg_head fs.name) (notAFunctionMsg_head fs.name) (by decide) h
  · rintro ⟨hT, hC⟩
    simp [_validate_required_fn_args, hT, hC]
  · intro hT
    simp [_validate_optional_fn_args, hT]

/-- Witness for C10: the theorem applied to concrete classes whose `predict`
attribute is `None`-like falsy, or truthy but not callable. -/
theorem required_fn_truthiness_witness :
    (_validate_required_fn_args ⟨[("predict", PyVal.value false false)]⟩ predictRule).1
        = .error (.userException [notDefinedMsg "predict"]) ∧
    (_validate_required_fn_args ⟨[("predict", PyVal.value true false)]⟩ predictRule).1
        = .error (.userException [notAFunctionMsg "predict"]) ∧
    (_validate_optional_fn_args ⟨[("predict", PyVal.value false false)]⟩ predictRule).1
        = .ok () := by
  refine ⟨?_, ?_, ?_⟩
  · exact (required_fn_truthiness ⟨[("predict", PyVal.value false false)]⟩
      predictRule).1 (PyVal.value false false) rfl rfl
  · exact (required_fn_truthiness ⟨[("predict", PyVal.value true false)]⟩
      predictRule).2.1.mpr ⟨rfl, rfl⟩
  · exact (required_fn_truthiness ⟨[("predict", PyVal.value false false)]⟩
      predictRule).2.2 rfl

end CortexPredictor
